import Mathlib

/-!
Shallow embedding of the RAG PDF question-answering service
(repository `pdf-api`, files `src/main.py` and `src/app.py`).

The repository has two FastAPI applications:
* `main.py` — the full service: module-level `qa_chain` / `current_document_info`
  slot, `/upload_pdf/`, `/ask/`, `/health`, `/status/`, `/reset/`.
* `app.py` — a minimal variant: module-level `qa_chain` only, `/upload_pdf/`
  and `/ask/`.

External collaborators (PyPDFLoader, RecursiveCharacterTextSplitter, the
HuggingFace embedder, FAISS, the Groq LLM) are modelled as oracles passed in
an environment record: each handler call receives the outcome the external
component would produce on that call.  Python strings that the handlers slice
character-wise are modelled as `List Char`.
-/

namespace PdfApi

/-- Text the handlers slice character by character (Python `str`). -/
abbrev Text := List Char

/-- One page as returned by `PyPDFLoader.load()`: page text plus the `page`
metadata entry. -/
structure PageDoc where
  page_content : Text
  page : Nat
deriving Repr, DecidableEq

/-- One chunk produced by `RecursiveCharacterTextSplitter.split_documents`:
text plus the (optional) source-page metadata. -/
structure Chunk where
  page_content : Text
  page : Option Nat
deriving Repr, DecidableEq

/-- An embedding vector (opaque numeric vector from the external embedder). -/
abbrev Vec := List Int

/-- The FAISS vector store: one (sequence id, chunk, embedding) entry per
chunk, ids in original chunk order starting at 0. -/
structure FaissIndex where
  entries : List (Nat × Chunk × Vec)
deriving Repr, DecidableEq

/-- Pair each chunk with its 0-based sequence id. -/
def withIds : Nat → List Chunk → List (Nat × Chunk)
  | _, [] => []
  | i, c :: cs => (i, c) :: withIds (i + 1) cs

/-- Modelled from the spec: `FAISS.from_documents(docs, embeddings)` (the FAISS
library itself is not part of the repository).  Per §4.2 the Indexer computes
one embedding vector per chunk and stores the (chunk, vector) pairs with their
sequence ids. -/
def faissFromDocuments (docs : List Chunk) (embed : Text → Vec) : FaissIndex :=
  ⟨(withIds 0 docs).map (fun p => (p.1, p.2, embed p.2.page_content))⟩

/-- Squared Euclidean distance between a query vector and a stored vector. -/
def sqDist (u v : Vec) : Nat :=
  ((List.zipWith (fun a b => a - b) u v).map (fun d => (d * d).toNat)).sum

/-- Ordering used by retrieval on scored entries `(distance, id, chunk)`:
strictly smaller distance first, ties broken by lower sequence id (§4.2). -/
def retrOrd (a b : Nat × Nat × Chunk) : Prop :=
  a.1 < b.1 ∨ (a.1 = b.1 ∧ a.2.1 ≤ b.2.1)

instance retrOrdDec : DecidableRel retrOrd := fun a b => by
  unfold retrOrd; infer_instance

instance retrOrdTotal : IsTotal (Nat × Nat × Chunk) retrOrd :=
  ⟨by intro a b; unfold retrOrd; omega⟩

instance retrOrdTrans : IsTrans (Nat × Nat × Chunk) retrOrd :=
  ⟨by intro a b c; unfold retrOrd; omega⟩

/-- Score every index entry against the query vector. -/
def scoreEntries (idx : FaissIndex) (qv : Vec) : List (Nat × Nat × Chunk) :=
  idx.entries.map (fun e => (sqDist qv e.2.2, e.1, e.2.1))

/-- Modelled from the spec: the FAISS nearest-neighbor query behind
`faiss_index.as_retriever(k=4)` (the FAISS library itself is not part of the
repository).  Per §4.3 it returns the `min(k, |index|)` entries closest to the
query vector, ordered by ascending distance, ties broken by lower sequence
id. -/
def queryRanked (idx : FaissIndex) (qv : Vec) (k : Nat) :
    List (Nat × Nat × Chunk) :=
  (List.insertionSort retrOrd (scoreEntries idx qv)).take k

/-- The retrieved chunks, in rank order. -/
def queryIndex (idx : FaissIndex) (qv : Vec) (k : Nat) : List Chunk :=
  (queryRanked idx qv k).map (fun e => e.2.2)

/-- The Groq LLM handle as configured by `ChatGroq(...)`. -/
structure GroqLLM where
  api_key : String
  model_name : String
deriving Repr, DecidableEq

/-- The `RetrievalQA` chain: the retriever's index plus the LLM handle. -/
structure QAChain where
  index : FaissIndex
  llm : GroqLLM
deriving Repr, DecidableEq

/-- `current_document_info` as stored by a successful upload (main.py:122). -/
structure DocInfo where
  filename : String
  num_pages : Nat
  num_chunks : Nat
  total_characters : Nat
deriving Repr, DecidableEq

/-- The module-level mutable slot of `main.py`:
`qa_chain` and `current_document_info` (main.py:26-27). -/
structure Session where
  qa_chain : Option QAChain
  current_document_info : Option DocInfo
deriving Repr, DecidableEq

/-- Both globals start as `None` (main.py:26-27). -/
def emptySession : Session := ⟨none, none⟩

/-- `file.filename.lower().endswith(".pdf")` (main.py:66): the lower-cased
character sequence of the filename ends with `.pdf`. -/
def hasPdfExt (filename : String) : Bool :=
  List.isSuffixOf (".pdf".data) (filename.data.map Char.toLower)

/-- `not question.strip()` (main.py:161): stripping whitespace from both ends
leaves the empty string, i.e. every character is whitespace. -/
def isBlank (question : String) : Bool :=
  question.data.all Char.isWhitespace

namespace Main

/-- Oracle outcomes of the external components for one `upload_pdf` call in
`main.py`: whether `await file.read()` succeeds, what `PyPDFLoader.load()`
returns (pages, or the message of the exception it raises), what the splitter
returns, whether embedding plus `FAISS.from_documents` succeeds, the value of
`os.getenv("GROQ_API_KEY")`, and the embedder itself. -/
structure UploadEnv where
  readOk : Bool
  readErr : String
  loadResult : Except String (List PageDoc)
  splitResult : Except String (List Chunk)
  buildOk : Bool
  buildErr : String
  groqKey : Option String
  embed : Text → Vec

/-- The HTTP outcome of `upload_pdf` in `main.py`: the JSON success payload, or
an `HTTPException` with status code and detail. -/
inductive UploadResult where
  | success (message : String) (document_info : DocInfo)
  | error (status : Nat) (detail : String)
deriving Repr, DecidableEq

/-- Everything observable about one `upload_pdf` call in `main.py`: the HTTP
result, the module globals after the call, whether a temporary file was
created, and whether it was removed before returning. -/
structure UploadOutcome where
  result : UploadResult
  session : Session
  tempCreated : Bool
  tempRemoved : Bool
deriving Repr

/-- Detail prefix used by the blanket `except` handler (main.py:148). -/
def wrapErr (m : String) : String := "Error processing PDF: " ++ m

/-- `upload_pdf` (main.py:58-148).  Control flow notes:

* the extension and embeddings checks (main.py:66-70) run before the `try`
  block, so their `HTTPException`s propagate with their own status codes;
* every exception raised inside the `try` block — including the
  `HTTPException(400)` for a PDF with no content (main.py:86) and the
  `HTTPException(500)` for a missing API key (main.py:104) — is caught by
  `except Exception` (main.py:139) and re-raised as status 500 with detail
  `"Error processing PDF: " + str(e)`, where `str` of an `HTTPException` is
  `"<status>: <detail>"`;
* the temp file is created by the `with tempfile.NamedTemporaryFile` block
  (main.py:74); `pdf_path` is bound only after `file.read()` and the write
  succeed (main.py:77), and the `except` handler unlinks only when
  `"pdf_path" in locals()` (main.py:141), so a read failure leaks the file;
* on success `qa_chain`, `current_document_info` are assigned and the temp
  file unlinked (main.py:114-130) with nothing fallible in between, so the
  slot swap is atomic. -/
def upload_pdf (env : UploadEnv) (filename : String) (embeddingsLoaded : Bool)
    (s : Session) : UploadOutcome :=
  if hasPdfExt filename = false then
    ⟨.error 400 "Only PDF files are allowed", s, false, false⟩
  else if embeddingsLoaded = false then
    ⟨.error 500 "Embeddings model not loaded. Please restart the server.", s, false, false⟩
  else if env.readOk = false then
    ⟨.error 500 (wrapErr env.readErr), s, true, false⟩
  else
    match env.loadResult with
    | .error m => ⟨.error 500 (wrapErr m), s, true, true⟩
    | .ok documents =>
      if documents.isEmpty = true then
        ⟨.error 500 (wrapErr "400: No content found in the PDF file"), s, true, true⟩
      else
        match env.splitResult with
        | .error m => ⟨.error 500 (wrapErr m), s, true, true⟩
        | .ok docs =>
          if env.buildOk = false then
            ⟨.error 500 (wrapErr env.buildErr), s, true, true⟩
          else
            match env.groqKey with
            | none =>
              ⟨.error 500 (wrapErr "500: GROQ_API_KEY environment variable not set"), s, true, true⟩
            | some key =>
              let faiss := faissFromDocuments docs env.embed
              let llm : GroqLLM := ⟨key, "llama3-8b-8192"⟩
              let info : DocInfo :=
                ⟨filename, documents.length, docs.length,
                 (docs.map (fun d => d.page_content.length)).sum⟩
              ⟨.success ("PDF \'" ++ filename ++ "\' uploaded and processed successfully") info,
               ⟨some ⟨faiss, llm⟩, some info⟩, true, true⟩

/-- Whether this `upload_pdf` call succeeds (independent of the current
session: no branch of the handler reads the globals). -/
def uploadOkB (env : UploadEnv) (filename : String) (embeddingsLoaded : Bool) : Bool :=
  hasPdfExt filename && embeddingsLoaded && env.readOk &&
  (match env.loadResult with | .ok ds => !ds.isEmpty | .error _ => false) &&
  (match env.splitResult with | .ok _ => true | .error _ => false) &&
  env.buildOk && env.groqKey.isSome

/-- One entry of the `sources` list of `/ask/` (main.py:175-179). -/
structure SourceInfo where
  chunk_id : Nat
  page : Option Nat
  content_preview : Text
deriving Repr, DecidableEq

/-- The JSON payload of a successful `/ask/` call (main.py:181-187). -/
structure AskResponse where
  question : String
  answer : Text
  document_info : Option DocInfo
  sources : List SourceInfo
  num_sources : Nat
deriving Repr, DecidableEq

/-- The HTTP outcome of `ask_question` in `main.py`. -/
inductive AskResult where
  | success (resp : AskResponse)
  | error (status : Nat) (detail : String)
deriving Repr, DecidableEq

/-- Everything observable about one `ask_question` call in `main.py`: the HTTP
result, the globals after the call (never written by this handler), and
whether the retriever / the LLM were invoked. -/
structure AskOutcome where
  result : AskResult
  session : Session
  retrieverInvoked : Bool
  llmInvoked : Bool
deriving Repr

/-- Oracle outcomes of the external components for one `ask_question` call:
the embedding of the question and the LLM's answer (or the message of the
exception the chain raises). -/
structure AskEnv where
  queryVec : Vec
  llmResult : Except String Text

/-- `doc.page_content[:200] + "..." if len(doc.page_content) > 200 else
doc.page_content` (main.py:178). -/
def contentPreview (t : Text) : Text :=
  if 200 < t.length then t.take 200 ++ ['.', '.', '.'] else t

/-- The `sources` list built by `for i, doc in enumerate(source_docs)`
(main.py:174-179): `chunk_id` is `i + 1`. -/
def mkSources : Nat → List Chunk → List SourceInfo
  | _, [] => []
  | i, d :: ds => ⟨i + 1, d.page, contentPreview d.page_content⟩ :: mkSources (i + 1) ds

/-- `ask_question` (main.py:150-194).  The `qa_chain` test (main.py:155) and
the blank-question test (main.py:161) run before the `try` block, so their
400s propagate; inside the `try` the chain first retrieves the top-4 chunks
and then calls the LLM, whose failure becomes a 500 (main.py:192-194). -/
def ask_question (s : Session) (question : String) (env : AskEnv) : AskOutcome :=
  match s.qa_chain with
  | none =>
    ⟨.error 400 "No PDF document has been uploaded and processed. Please upload a PDF first.",
     s, false, false⟩
  | some chain =>
    if isBlank question = true then
      ⟨.error 400 "Question cannot be empty", s, false, false⟩
    else
      let source_docs := queryIndex chain.index env.queryVec 4
      match env.llmResult with
      | .error m => ⟨.error 500 ("Error processing question: " ++ m), s, true, true⟩
      | .ok answer =>
        let sources := mkSources 0 source_docs
        ⟨.success ⟨question, answer, s.current_document_info, sources, sources.length⟩,
         s, true, true⟩

/-- `health_check` (main.py:49-56): status string, `embeddings_loaded`,
`document_processed`. -/
def health_check (embeddingsLoaded : Bool) (s : Session) : String × Bool × Bool :=
  ("healthy", embeddingsLoaded, s.qa_chain.isSome)

/-- `get_status` (main.py:196-206): `system_ready`, `embeddings_loaded`,
`current_document`, `groq_api_configured`. -/
def get_status (embeddingsLoaded groqConfigured : Bool) (s : Session) :
    Bool × Bool × Option DocInfo × Bool :=
  (s.qa_chain.isSome, embeddingsLoaded, s.current_document_info, groqConfigured)

/-- `reset_system` (main.py:208-219): sets both globals to `None`. -/
def reset_system (_s : Session) : String × Session :=
  ("System reset successfully. You can now upload a new PDF.", ⟨none, none⟩)

/-- The success payload's `num_sources`, when the result is a success. -/
def numSourcesOf : AskResult → Option Nat
  | .success r => some r.num_sources
  | .error _ _ => none

/-- The success payload's `sources`, when the result is a success. -/
def successSources : AskResult → List SourceInfo
  | .success r => r.sources
  | .error _ _ => []

/-- The HTTP status of an `ask_question` error result. -/
def askStatus : AskResult → Option Nat
  | .success _ => none
  | .error c _ => some c

end Main

namespace App

/-- The single module-level global of `app.py`: `qa_chain` (app.py:12). -/
structure AppSession where
  qa_chain : Option QAChain
deriving Repr, DecidableEq

/-- Oracle outcomes of the external components for one `upload_pdf` call in
`app.py` (same collaborators as in `main.py`; `buildOk` also covers the
per-request `HuggingFaceEmbeddings` construction, app.py:26). -/
structure UploadEnv where
  readOk : Bool
  readErr : String
  loadResult : Except String (List PageDoc)
  splitResult : Except String (List Chunk)
  buildOk : Bool
  buildErr : String
  groqKey : Option String
  embed : Text → Vec

/-- The HTTP outcome of `upload_pdf` in `app.py`: the success payload, or the
`JSONResponse(status_code=500, content={"error": str(e)})` (app.py:40). -/
inductive UploadResult where
  | success (message : String)
  | error (status : Nat) (err : String)
deriving Repr, DecidableEq

/-- Everything observable about one `upload_pdf` call in `app.py`. -/
structure UploadOutcome where
  result : UploadResult
  session : AppSession
  tempCreated : Bool
  tempRemoved : Bool
deriving Repr

/-- `upload_pdf` (app.py:14-40).  There is no extension check and no
empty-document check; the whole body is one `try` whose `except Exception`
returns status 500.  The handler writes `/tmp/<filename>` (app.py:17-19) and
contains no `os.unlink` at all, so the file it creates is never removed, on
the success path included.  `qa_chain` is assigned only as the last step
(app.py:35), so any failure leaves it unchanged. -/
def upload_pdf (env : UploadEnv) (_filename : String) (s : AppSession) : UploadOutcome :=
  if env.readOk = false then ⟨.error 500 env.readErr, s, true, false⟩
  else
    match env.loadResult with
    | .error m => ⟨.error 500 m, s, true, false⟩
    | .ok _documents =>
      match env.splitResult with
      | .error m => ⟨.error 500 m, s, true, false⟩
      | .ok docs =>
        if env.buildOk = false then ⟨.error 500 env.buildErr, s, true, false⟩
        else
          match env.groqKey with
          | none => ⟨.error 500 "GROQ_API_KEY environment variable not set", s, true, false⟩
          | some key =>
            ⟨.success "PDF uploaded and processed successfully.",
             ⟨some ⟨faissFromDocuments docs env.embed, ⟨key, "llama3-8b-8192"⟩⟩⟩,
             true, false⟩

/-- The HTTP outcome of `ask_question` in `app.py`. -/
inductive AskResult where
  | success (question : String) (answer : Text)
  | error (status : Nat) (err : String)
deriving Repr, DecidableEq

/-- Everything observable about one `ask_question` call in `app.py`: the HTTP
result, the global afterwards, and whether `qa_chain.run` (retrieval plus the
LLM call) was invoked. -/
structure AskOutcome where
  result : AskResult
  session : AppSession
  llmInvoked : Bool
deriving Repr

/-- `ask_question` (app.py:42-50).  Only the `qa_chain` guard exists: a blank
question is passed straight to `qa_chain.run(question)` (app.py:47). -/
def ask_question (s : AppSession) (question : String)
    (llmResult : Except String Text) : AskOutcome :=
  match s.qa_chain with
  | none => ⟨.error 400 "Upload and process a PDF first.", s, false⟩
  | some _chain =>
    match llmResult with
    | .error m => ⟨.error 500 m, s, true⟩
    | .ok answer => ⟨.success question answer, s, true⟩

/-- The HTTP status of an `upload_pdf` result in `app.py`, `none` on the 200
success payload. -/
def uploadStatus : UploadResult → Option Nat
  | .success _ => none
  | .error c _ => some c

/-- The HTTP status of an `ask_question` result in `app.py`, `none` on the 200
success payload. -/
def askStatus : AskResult → Option Nat
  | .success _ _ => none
  | .error c _ => some c

end App

/-- One request against the `main.py` service, with the oracle outcomes of its
external components. -/
inductive Op where
  | upload (env : Main.UploadEnv) (filename : String) (embeddingsLoaded : Bool)
  | ask (question : String) (env : Main.AskEnv)
  | reset

/-- The session after serving one request (`ask` never writes the globals,
`upload` swaps them only on success, `reset` clears them). -/
def step (s : Session) : Op → Session
  | .upload env fn emb => (Main.upload_pdf env fn emb s).session
  | .ask q env => (Main.ask_question s q env).session
  | .reset => (Main.reset_system s).2

/-- The session after serving a sequence of requests. -/
def run (s : Session) (ops : List Op) : Session := ops.foldl step s

/-- Whether the request is an upload that succeeds (success of `upload_pdf`
does not depend on the current session). -/
def isSuccessfulUpload : Op → Bool
  | .upload env fn emb => Main.uploadOkB env fn emb
  | _ => false

/-! ### Concrete inputs used to instantiate the theorems -/

/-- A stand-in embedder: the vector is the text's length. -/
def wEmbed : Text → Vec := fun t => [Int.ofNat t.length]

/-- A one-page extracted document. -/
def wPage : PageDoc := ⟨['a', 'b'], 0⟩

/-- First chunk of the page. -/
def wChunkA : Chunk := ⟨['a'], some 0⟩

/-- Second chunk of the page. -/
def wChunkB : Chunk := ⟨['b'], some 0⟩

/-- A chunk whose text has 201 characters (preview gets truncated). -/
def wLongChunk : Chunk := ⟨List.replicate 201 'x', some 1⟩

/-- Oracle under which every external step of `main.py`'s upload succeeds. -/
def wEnvGood : Main.UploadEnv :=
  ⟨true, "read failed", .ok [wPage], .ok [wChunkA, wChunkB], true,
   "embedding failed", some "key", wEmbed⟩

/-- Oracle under which the loader yields no documents (scanned/empty PDF). -/
def wEnvNoDocs : Main.UploadEnv := { wEnvGood with loadResult := .ok [] }

/-- Oracle under which `PyPDFLoader.load()` raises. -/
def wEnvLoadFail : Main.UploadEnv :=
  { wEnvGood with loadResult := .error "load failed" }

/-- Oracle for one `ask` call: query embedding and a successful LLM answer. -/
def wAskEnv : Main.AskEnv := ⟨[0], .ok ['o', 'k']⟩

/-- Oracle under which every external step of `app.py`'s upload succeeds. -/
def wAppEnvGood : App.UploadEnv :=
  ⟨true, "read failed", .ok [wPage], .ok [wChunkA, wChunkB], true,
   "embedding failed", some "key", wEmbed⟩

/-- Oracle under which `PyPDFLoader.load()` raises in `app.py` (what happens
when the uploaded file is not a valid PDF). -/
def wAppEnvLoadFail : App.UploadEnv :=
  { wAppEnvGood with loadResult := .error "not a valid PDF" }

/-- A populated QA chain over one chunk. -/
def wChain : QAChain := ⟨⟨[(0, wChunkA, [1])]⟩, ⟨"key", "llama3-8b-8192"⟩⟩

/-- The `main.py` session after a successful upload of `wEnvGood`. -/
def wSession : Session :=
  (Main.upload_pdf wEnvGood "doc.pdf" true emptySession).session

/-- A READY session whose index holds a short and a long chunk. -/
def wReady : Session :=
  ⟨some ⟨⟨[(0, wChunkA, [0]), (1, wLongChunk, [1])]⟩, ⟨"key", "llama3-8b-8192"⟩⟩,
   some ⟨"doc.pdf", 1, 2, 202⟩⟩

/-! ### Helper lemmas -/

/-- `ask_question` never writes the globals: the session passes through
unchanged on every path. -/
theorem ask_session_eq (s : Session) (q : String) (env : Main.AskEnv) :
    (Main.ask_question s q env).session = s := by
  unfold Main.ask_question
  rcases s with ⟨chain, info⟩
  cases chain with
  | none => rfl
  | some c =>
    simp only
    split
    · rfl
    · cases env.llmResult <;> rfl

/-- With `qa_chain = None`, `ask_question` returns the 400 not-ready error,
leaves the globals alone and invokes neither the retriever nor the LLM. -/
theorem ask_none (s : Session) (q : String) (env : Main.AskEnv)
    (h : s.qa_chain = none) :
    Main.ask_question s q env =
      ⟨.error 400 "No PDF document has been uploaded and processed. Please upload a PDF first.",
       s, false, false⟩ := by
  unfold Main.ask_question
  rw [h]

/-- A failing `upload_pdf` call leaves the globals exactly as they were. -/
theorem upload_fail_session (env : Main.UploadEnv) (fn : String) (emb : Bool)
    (s : Session) (h : Main.uploadOkB env fn emb = false) :
    (Main.upload_pdf env fn emb s).session = s := by
  unfold Main.upload_pdf
  repeat' split
  all_goals first
    | rfl
    | (exfalso; simp_all [Main.uploadOkB])

/-- A `upload_pdf` call with `uploadOkB` true returns the success payload. -/
theorem upload_ok_success (env : Main.UploadEnv) (fn : String) (emb : Bool)
    (s : Session) (h : Main.uploadOkB env fn emb = true) :
    ∃ m i, (Main.upload_pdf env fn emb s).result = .success m i := by
  unfold Main.upload_pdf
  repeat' split
  all_goals first
    | exact ⟨_, _, rfl⟩
    | (exfalso; simp_all [Main.uploadOkB])

/-- A failing `upload_pdf` call returns an `HTTPException` result. -/
theorem upload_fail_error (env : Main.UploadEnv) (fn : String) (emb : Bool)
    (s : Session) (h : Main.uploadOkB env fn emb = false) :
    ∃ c d, (Main.upload_pdf env fn emb s).result = .error c d := by
  unfold Main.upload_pdf
  repeat' split
  all_goals first
    | exact ⟨_, _, rfl⟩
    | (exfalso; simp_all [Main.uploadOkB])

/-- Starting from an empty `qa_chain`, a request sequence containing no
successful upload never populates `qa_chain`. -/
theorem run_preserves_none (ops : List Op) (s : Session)
    (hs : s.qa_chain = none)
    (h : ∀ op ∈ ops, isSuccessfulUpload op = false) :
    (run s ops).qa_chain = none := by
  induction ops generalizing s with
  | nil => exact hs
  | cons op ops ih =>
    have hop := h op (List.mem_cons_self op ops)
    have hrest : ∀ o ∈ ops, isSuccessfulUpload o = false :=
      fun o ho => h o (List.mem_cons_of_mem op ho)
    refine ih (step s op) ?_ hrest
    cases op with
    | upload env fn emb =>
      have hf : Main.uploadOkB env fn emb = false := by
        simpa [isSuccessfulUpload] using hop
      show (Main.upload_pdf env fn emb s).session.qa_chain = none
      rw [upload_fail_session env fn emb s hf]
      exact hs
    | ask q env =>
      show (Main.ask_question s q env).session.qa_chain = none
      rw [ask_session_eq]
      exact hs
    | reset => rfl

/-- `withIds` pairs without changing the length. -/
theorem withIds_length (i : Nat) (docs : List Chunk) :
    (withIds i docs).length = docs.length := by
  induction docs generalizing i with
  | nil => rfl
  | cons d ds ih => simp [withIds, ih]

/-- The index built from `docs` has one entry per chunk. -/
theorem faissFromDocuments_length (docs : List Chunk) (embed : Text → Vec) :
    (faissFromDocuments docs embed).entries.length = docs.length := by
  simp [faissFromDocuments, withIds_length]

/-- The full outcome of a succeeding `upload_pdf` call, in terms of the oracle
components it consumed. -/
theorem upload_result_spec (env : Main.UploadEnv) (fn : String) (emb : Bool)
    (s : Session) (h : Main.uploadOkB env fn emb = true) :
    ∃ documents docs key,
      env.loadResult = .ok documents ∧ env.splitResult = .ok docs ∧
      env.groqKey = some key ∧
      Main.upload_pdf env fn emb s =
        ⟨.success ("PDF \'" ++ fn ++ "\' uploaded and processed successfully")
           ⟨fn, documents.length, docs.length,
            (docs.map (fun d => d.page_content.length)).sum⟩,
         ⟨some ⟨faissFromDocuments docs env.embed, ⟨key, "llama3-8b-8192"⟩⟩,
          some ⟨fn, documents.length, docs.length,
                (docs.map (fun d => d.page_content.length)).sum⟩⟩,
         true, true⟩ := by
  simp only [Main.uploadOkB, Bool.and_eq_true] at h
  obtain ⟨⟨⟨⟨⟨⟨h1, h2⟩, h3⟩, h4⟩, h5⟩, h6⟩, h7⟩ := h
  rcases hl : env.loadResult with m | documents
  · rw [hl] at h4; exact absurd h4 (by simp)
  · rcases hsp : env.splitResult with m | docs
    · rw [hsp] at h5; exact absurd h5 (by simp)
    · rcases hk : env.groqKey with _ | key
      · rw [hk] at h7; exact absurd h7 (by simp)
      · refine ⟨documents, docs, key, rfl, rfl, rfl, ?_⟩
        rw [hl] at h4
        simp only [Bool.not_eq_true'] at h4
        unfold Main.upload_pdf
        simp [h1, h2, h3, h4, h6, hl, hsp, hk]

/-- Inversion of a successful `ask_question` call: the chain was present, the
LLM answered, and the payload is built from the top-4 retrieval. -/
theorem ask_success_inv (s : Session) (q : String) (env : Main.AskEnv)
    (resp : Main.AskResponse)
    (h : (Main.ask_question s q env).result = .success resp) :
    ∃ chain ans, s.qa_chain = some chain ∧ env.llmResult = .ok ans ∧
      resp = ⟨q, ans, s.current_document_info,
        Main.mkSources 0 (queryIndex chain.index env.queryVec 4),
        (Main.mkSources 0 (queryIndex chain.index env.queryVec 4)).length⟩ := by
  unfold Main.ask_question at h
  split at h
  · exact absurd h (by simp)
  · rename_i chain hchain
    split at h
    · exact absurd h (by simp)
    · split at h
      · exact absurd h (by simp)
      · rename_i ans hans
        simp only [Main.AskResult.success.injEq] at h
        exact ⟨chain, ans, hchain, hans, h.symm⟩

/-- Retrieval returns exactly `min(k, |index|)` chunks. -/
theorem queryIndex_length (idx : FaissIndex) (qv : Vec) (k : Nat) :
    (queryIndex idx qv k).length = min k idx.entries.length := by
  simp [queryIndex, queryRanked, scoreEntries, List.length_take]

/-- The ranked retrieval results are sorted by non-decreasing distance. -/
theorem queryRanked_sorted_dist (idx : FaissIndex) (qv : Vec) (k : Nat) :
    List.Sorted (fun a b => a ≤ b) ((queryRanked idx qv k).map (fun e => e.1)) := by
  have hs : List.Sorted retrOrd (List.insertionSort retrOrd (scoreEntries idx qv)) :=
    List.sorted_insertionSort retrOrd _
  have ht : List.Sorted retrOrd (queryRanked idx qv k) :=
    List.Pairwise.sublist (List.take_sublist k _) hs
  exact List.Pairwise.map _ (fun a b hab => by unfold retrOrd at hab; omega) ht

/-- `mkSources` yields one source entry per retrieved chunk. -/
theorem mkSources_length (i : Nat) (docs : List Chunk) :
    (Main.mkSources i docs).length = docs.length := by
  induction docs generalizing i with
  | nil => rfl
  | cons d ds ih => simp [Main.mkSources, ih]

/-- The `chunk_id`s produced by `mkSources i` are the consecutive integers
starting at `i + 1`, in order. -/
theorem mkSources_map_chunk_id (i : Nat) (docs : List Chunk) :
    (Main.mkSources i docs).map (fun src => src.chunk_id) =
      List.range' (i + 1) docs.length := by
  induction docs generalizing i with
  | nil => rfl
  | cons d ds ih => simp [Main.mkSources, List.range', ih]

/-- Every source entry's preview is the preview of some retrieved chunk's
text. -/
theorem mem_mkSources (src : Main.SourceInfo) (i : Nat) (docs : List Chunk)
    (h : src ∈ Main.mkSources i docs) :
    ∃ d ∈ docs, src.content_preview = Main.contentPreview d.page_content := by
  induction docs generalizing i with
  | nil => simp [Main.mkSources] at h
  | cons d ds ih =>
    simp only [Main.mkSources, List.mem_cons] at h
    rcases h with h | h
    · exact ⟨d, List.mem_cons_self d ds, by rw [h]⟩
    · obtain ⟨d', hd', hp⟩ := ih (i + 1) h
      exact ⟨d', List.mem_cons_of_mem d hd', hp⟩

/-- `contentPreview` follows main.py:178 exactly: the text itself up to 200
characters, else the first 200 characters plus `"..."`; in both cases at most
203 characters. -/
theorem contentPreview_spec (t : Text) :
    (Main.contentPreview t).length ≤ 203 ∧
    (t.length ≤ 200 → Main.contentPreview t = t) ∧
    (200 < t.length → Main.contentPreview t = t.take 200 ++ ['.', '.', '.']) := by
  unfold Main.contentPreview
  by_cases h : 200 < t.length
  · rw [if_pos h]
    refine ⟨?_, fun hle => absurd h (by omega), fun _ => rfl⟩
    simp only [List.length_append, List.length_take, List.length_cons,
      List.length_nil]
    omega
  · rw [if_neg h]
    exact ⟨by omega, fun _ => rfl, fun hlt => absurd hlt h⟩

/-! ### The claims -/

/-- C1: with the Session EMPTY (`qa_chain = None`), `ask` fails with the
not-ready 400 error and changes nothing — in `main.py` the globals are
untouched and neither the retriever nor the LLM runs; in `app.py` likewise. -/
theorem claim_C1_ask_in_empty_fails (s : Session) (sa : App.AppSession)
    (q qa : String) (env : Main.AskEnv) (lr : Except String Text)
    (hs : s.qa_chain = none) (ha : sa.qa_chain = none) :
    (Main.ask_question s q env).result =
      .error 400 "No PDF document has been uploaded and processed. Please upload a PDF first." ∧
    (Main.ask_question s q env).session = s ∧
    (Main.ask_question s q env).retrieverInvoked = false ∧
    (Main.ask_question s q env).llmInvoked = false ∧
    (App.ask_question sa qa lr).result = .error 400 "Upload and process a PDF first." ∧
    (App.ask_question sa qa lr).session = sa ∧
    (App.ask_question sa qa lr).llmInvoked = false := by
  have hm := ask_none s q env hs
  refine ⟨by rw [hm], by rw [hm], by rw [hm], by rw [hm], ?_, ?_, ?_⟩ <;>
    simp [App.ask_question, ha]

/-- C1 witness: the initial state of both services is EMPTY, and asking there
returns the 400 not-ready error with no state change. -/
theorem claim_C1_witness :
    (Main.ask_question emptySession "What is this about?" wAskEnv).result =
      .error 400 "No PDF document has been uploaded and processed. Please upload a PDF first." ∧
    (Main.ask_question emptySession "What is this about?" wAskEnv).session = emptySession ∧
    (Main.ask_question emptySession "What is this about?" wAskEnv).retrieverInvoked = false ∧
    (Main.ask_question emptySession "What is this about?" wAskEnv).llmInvoked = false ∧
    (App.ask_question ⟨none⟩ "What is this about?" (.ok ['o', 'k'])).result =
      .error 400 "Upload and process a PDF first." ∧
    (App.ask_question ⟨none⟩ "What is this about?" (.ok ['o', 'k'])).session = ⟨none⟩ ∧
    (App.ask_question ⟨none⟩ "What is this about?" (.ok ['o', 'k'])).llmInvoked = false :=
  claim_C1_ask_in_empty_fails emptySession ⟨none⟩ "What is this about?"
    "What is this about?" wAskEnv (.ok ['o', 'k']) rfl rfl

/-- C2: a failing upload in `main.py` is atomic — the globals are exactly what
they were, so subsequent `ask`, `health` and `status` calls see no partial
index or metadata. -/
theorem claim_C2_upload_failure_atomic (env : Main.UploadEnv) (fn : String)
    (emb : Bool) (s : Session) (c : Nat) (d : String)
    (h : (Main.upload_pdf env fn emb s).result = .error c d) :
    (Main.upload_pdf env fn emb s).session = s ∧
    (∀ el, Main.health_check el (Main.upload_pdf env fn emb s).session =
      Main.health_check el s) ∧
    (∀ el gk, Main.get_status el gk (Main.upload_pdf env fn emb s).session =
      Main.get_status el gk s) ∧
    (∀ q aenv, Main.ask_question (Main.upload_pdf env fn emb s).session q aenv =
      Main.ask_question s q aenv) := by
  have hsession : (Main.upload_pdf env fn emb s).session = s := by
    by_cases hb : Main.uploadOkB env fn emb = true
    · obtain ⟨m, i, hres⟩ := upload_ok_success env fn emb s hb
      rw [hres] at h
      exact Main.UploadResult.noConfusion h
    · exact upload_fail_session env fn emb s (by simpa using hb)
  exact ⟨hsession, fun el => by rw [hsession], fun el gk => by rw [hsession],
    fun q aenv => by rw [hsession]⟩

/-- C2 witness: an upload whose PDF loading step raises, issued while a
document is already loaded, leaves that READY session exactly as it was. -/
theorem claim_C2_witness :
    (Main.upload_pdf wEnvLoadFail "doc.pdf" true wSession).session = wSession :=
  (claim_C2_upload_failure_atomic wEnvLoadFail "doc.pdf" true wSession
    500 "Error processing PDF: load failed" rfl).1

/-- C3: reset yields the EMPTY session from any state, and an `ask` issued
after any further request sequence containing no successful upload still fails
with the 400 not-ready error. -/
theorem claim_C3_reset_yields_empty (s : Session) (ops : List Op) (q : String)
    (aenv : Main.AskEnv)
    (h : ∀ op ∈ ops, isSuccessfulUpload op = false) :
    (Main.reset_system s).2 = emptySession ∧
    (Main.ask_question (run (Main.reset_system s).2 ops) q aenv).result =
      .error 400 "No PDF document has been uploaded and processed. Please upload a PDF first." := by
  refine ⟨rfl, ?_⟩
  have hn : (run (Main.reset_system s).2 ops).qa_chain = none :=
    run_preserves_none ops _ rfl h
  rw [ask_none _ q aenv hn]

/-- C3 witness: resetting a READY session and then serving a failed upload and
an ask leaves the system answering 400 not-ready. -/
theorem claim_C3_witness :
    (Main.reset_system wSession).2 = emptySession ∧
    (Main.ask_question
      (run (Main.reset_system wSession).2
        [Op.upload wEnvLoadFail "doc.pdf" true, Op.ask "hi" wAskEnv, Op.reset])
      "hi" wAskEnv).result =
      .error 400 "No PDF document has been uploaded and processed. Please upload a PDF first." := by
  refine claim_C3_reset_yields_empty wSession _ "hi" wAskEnv ?_
  intro op hop
  simp only [List.mem_cons, List.not_mem_nil, or_false] at hop
  rcases hop with rfl | rfl | rfl <;> rfl

/-- C4: retrieval over an index of `n` chunks with parameter `k` returns
exactly `min(k, n)` chunks ordered by non-decreasing distance to the query
embedding, and the `num_sources` of a successful ask after a successful upload
equals `min(4, num_chunks)` of the current document. -/
theorem claim_C4_retrieval_min_k (idx : FaissIndex) (qv : Vec) (k : Nat)
    (env : Main.UploadEnv) (fn : String) (emb : Bool) (s : Session)
    (m : String) (i : DocInfo) (q : String) (aenv : Main.AskEnv)
    (resp : Main.AskResponse)
    (hu : (Main.upload_pdf env fn emb s).result = .success m i)
    (ha : (Main.ask_question (Main.upload_pdf env fn emb s).session q aenv).result =
      .success resp) :
    (queryIndex idx qv k).length = min k idx.entries.length ∧
    List.Sorted (fun a b => a ≤ b) ((queryRanked idx qv k).map (fun e => e.1)) ∧
    resp.num_sources = min 4 i.num_chunks := by
  refine ⟨queryIndex_length idx qv k, queryRanked_sorted_dist idx qv k, ?_⟩
  have hb : Main.uploadOkB env fn emb = true := by
    by_contra hbf
    obtain ⟨c, d, hres⟩ := upload_fail_error env fn emb s (by simpa using hbf)
    rw [hres] at hu
    exact Main.UploadResult.noConfusion hu
  obtain ⟨documents, docs, key, hl, hsp, hk, heq⟩ := upload_result_spec env fn emb s hb
  rw [heq] at hu ha
  simp only [Main.UploadResult.success.injEq] at hu
  obtain ⟨hm, hi⟩ := hu
  obtain ⟨chain, ans, hc, hlr, hresp⟩ := ask_success_inv _ q aenv resp ha
  have hchain : chain =
      ⟨faissFromDocuments docs env.embed, ⟨key, "llama3-8b-8192"⟩⟩ :=
    (Option.some.inj hc).symm
  subst hresp
  subst hchain
  simp only [mkSources_length, queryIndex_length, faissFromDocuments_length]
  rw [← hi]

/-- C4 witness: after a successful 2-chunk upload, a successful ask reports
`num_sources = min 4 2 = 2`; the concrete retrieval bound also holds. -/
theorem claim_C4_witness :
    Main.numSourcesOf
      (Main.ask_question (Main.upload_pdf wEnvGood "doc.pdf" true emptySession).session
        "hi" wAskEnv).result = some (min 4 2) := by
  obtain ⟨resp, hr⟩ :
      ∃ r, (Main.ask_question (Main.upload_pdf wEnvGood "doc.pdf" true emptySession).session
        "hi" wAskEnv).result = .success r := ⟨_, rfl⟩
  have h := claim_C4_retrieval_min_k ⟨[]⟩ [0] 4 wEnvGood "doc.pdf" true emptySession
    "PDF \'doc.pdf\' uploaded and processed successfully" ⟨"doc.pdf", 1, 2, 2⟩
    "hi" wAskEnv resp rfl hr
  rw [hr]
  simp only [Main.numSourcesOf, h.2.2]

/-- C5: the claim says an upload of a PDF with no extractable text fails with
HTTP 400; the code raises `HTTPException(400)` at main.py:86 but the blanket
`except Exception` at main.py:139 catches it and re-raises it as HTTP 500, so
the operation actually returns 500 (the Session is still unchanged). -/
theorem claim_C5_empty_extraction_returns_500 :
    (Main.upload_pdf wEnvNoDocs "scan.pdf" true emptySession).result =
      .error 500 "Error processing PDF: 400: No content found in the PDF file" ∧
    (Main.upload_pdf wEnvNoDocs "scan.pdf" true emptySession).session = emptySession :=
  ⟨rfl, rfl⟩

/-- C6 counterexample: `app.py`'s upload has no extension check at all; an
upload of `doc.txt` (whose PDF loading then raises) returns HTTP 500, not the
claimed 400. -/
theorem claim_C6_counterexample :
    hasPdfExt "doc.txt" = false ∧
    App.uploadStatus (App.upload_pdf wAppEnvLoadFail "doc.txt" ⟨none⟩).result ≠
      some 400 ∧
    App.uploadStatus (App.upload_pdf wAppEnvLoadFail "doc.txt" ⟨none⟩).result =
      some 500 :=
  ⟨rfl, by decide, rfl⟩

/-- C6 amended: in `main.py` an upload whose filename lacks a `.pdf` extension
returns HTTP 400 and leaves the Session untouched (no temp file is even
created); `app.py` performs no extension check and its upload never returns
400. -/
theorem claim_C6_main_rejects_non_pdf (env : Main.UploadEnv) (fn : String)
    (emb : Bool) (s : Session) (h : hasPdfExt fn = false) :
    (Main.upload_pdf env fn emb s).result = .error 400 "Only PDF files are allowed" ∧
    (Main.upload_pdf env fn emb s).session = s ∧
    (Main.upload_pdf env fn emb s).tempCreated = false := by
  unfold Main.upload_pdf
  rw [if_pos h]
  exact ⟨rfl, rfl, rfl⟩

/-- C6 witness: `doc.txt` is rejected with 400 by `main.py` even when every
external component would succeed, and the READY session survives. -/
theorem claim_C6_witness :
    (Main.upload_pdf wEnvGood "doc.txt" true wSession).result =
      .error 400 "Only PDF files are allowed" ∧
    (Main.upload_pdf wEnvGood "doc.txt" true wSession).session = wSession ∧
    (Main.upload_pdf wEnvGood "doc.txt" true wSession).tempCreated = false :=
  claim_C6_main_rejects_non_pdf wEnvGood "doc.txt" true wSession rfl

/-- C7 counterexample: `app.py`'s ask has no blank-question check; with a
document loaded, a whitespace-only question is passed straight to
`qa_chain.run`, so the LLM is invoked and the status is not 400. -/
theorem claim_C7_counterexample :
    isBlank "   " = true ∧
    (App.ask_question ⟨some wChain⟩ "   " (.ok ['o', 'k'])).llmInvoked = true ∧
    App.askStatus (App.ask_question ⟨some wChain⟩ "   " (.ok ['o', 'k'])).result ≠
      some 400 :=
  ⟨rfl, rfl, by decide⟩

/-- C7 amended: in `main.py` an ask whose question is blank (empty or
whitespace-only) returns HTTP 400 — the empty-question 400 when a document is
loaded, the not-ready 400 otherwise — without invoking the retriever or the
LLM and without touching the globals; `app.py` forwards blank questions to the
chain. -/
theorem claim_C7_main_blank_question (s : Session) (q : String)
    (env : Main.AskEnv) (h : isBlank q = true) :
    Main.askStatus (Main.ask_question s q env).result = some 400 ∧
    (Main.ask_question s q env).retrieverInvoked = false ∧
    (Main.ask_question s q env).llmInvoked = false ∧
    (Main.ask_question s q env).session = s := by
  unfold Main.ask_question
  rcases s with ⟨_ | chain, info⟩
  · exact ⟨rfl, rfl, rfl, rfl⟩
  · simp only
    rw [if_pos h]
    exact ⟨rfl, rfl, rfl, rfl⟩

/-- C7 witness: a whitespace-only question against a READY `main.py` session
gets a 400 with no retriever or LLM call. -/
theorem claim_C7_witness :
    Main.askStatus (Main.ask_question wReady "   " wAskEnv).result = some 400 ∧
    (Main.ask_question wReady "   " wAskEnv).retrieverInvoked = false ∧
    (Main.ask_question wReady "   " wAskEnv).llmInvoked = false ∧
    (Main.ask_question wReady "   " wAskEnv).session = wReady :=
  claim_C7_main_blank_question wReady "   " wAskEnv rfl

/-- C8 counterexample: `app.py`'s upload writes `/tmp/<filename>` and contains
no removal at all — even a fully successful upload returns with the temporary
file still on disk. -/
theorem claim_C8_counterexample :
    (App.upload_pdf wAppEnvGood "doc.pdf" ⟨none⟩).result =
      .success "PDF uploaded and processed successfully." ∧
    (App.upload_pdf wAppEnvGood "doc.pdf" ⟨none⟩).tempCreated = true ∧
    (App.upload_pdf wAppEnvGood "doc.pdf" ⟨none⟩).tempRemoved = false :=
  ⟨rfl, rfl, rfl⟩

/-- C8 amended: in `main.py`, on every execution whose upload body is read
successfully (so `pdf_path` gets bound), a created temporary file is removed
before returning, on the success path and on every error path; `app.py` never
removes the file it writes, and `main.py` leaks the file when reading the
body fails after the file's creation. -/
theorem claim_C8_main_temp_cleanup (env : Main.UploadEnv) (fn : String)
    (emb : Bool) (s : Session) (hr : env.readOk = true)
    (hc : (Main.upload_pdf env fn emb s).tempCreated = true) :
    (Main.upload_pdf env fn emb s).tempRemoved = true := by
  revert hc
  unfold Main.upload_pdf
  repeat' split
  all_goals intro hc
  all_goals first
    | rfl
    | (exact absurd hc Bool.false_ne_true)
    | simp_all

/-- C8 witness: a failing `main.py` upload (loader raises) that read its body
still removes the temporary file before returning. -/
theorem claim_C8_witness :
    (Main.upload_pdf wEnvLoadFail "doc.pdf" true emptySession).tempRemoved = true :=
  claim_C8_main_temp_cleanup wEnvLoadFail "doc.pdf" true emptySession rfl rfl

/-- C9: every source entry of a successful ask response previews the text of
one of the retrieved chunks: the whole text when it has at most 200
characters, else its first 200 characters followed by `"..."`; in both cases
the preview has at most 203 characters. -/
theorem claim_C9_preview_bounds (s : Session) (q : String) (env : Main.AskEnv)
    (resp : Main.AskResponse) (src : Main.SourceInfo)
    (h : (Main.ask_question s q env).result = .success resp)
    (hm : src ∈ resp.sources) :
    ∃ chain d, s.qa_chain = some chain ∧
      d ∈ queryIndex chain.index env.queryVec 4 ∧
      src.content_preview.length ≤ 203 ∧
      (d.page_content.length ≤ 200 → src.content_preview = d.page_content) ∧
      (200 < d.page_content.length →
        src.content_preview = d.page_content.take 200 ++ ['.', '.', '.']) := by
  obtain ⟨chain, ans, hc, hlr, hresp⟩ := ask_success_inv s q env resp h
  subst hresp
  obtain ⟨d, hd, hp⟩ := mem_mkSources src 0 _ hm
  obtain ⟨hlen, hshort, hlong⟩ := contentPreview_spec d.page_content
  exact ⟨chain, d, hc, hd, by rw [hp]; exact hlen,
    fun hle => by rw [hp, hshort hle],
    fun hgt => by rw [hp, hlong hgt]⟩

/-- C9 witness: asking a READY session holding a 1-character chunk and a
201-character chunk yields sources whose previews all fit in 203 characters. -/
theorem claim_C9_witness :
    (Main.successSources (Main.ask_question wReady "hi" wAskEnv).result).all
      (fun src => decide (src.content_preview.length ≤ 203)) = true := by
  obtain ⟨resp, hr⟩ :
      ∃ r, (Main.ask_question wReady "hi" wAskEnv).result = .success r := ⟨_, rfl⟩
  rw [hr]
  simp only [Main.successSources, List.all_eq_true, decide_eq_true_eq]
  intro src hsrc
  obtain ⟨chain, d, _, _, hlen, _, _⟩ :=
    claim_C9_preview_bounds wReady "hi" wAskEnv resp src hr hsrc
  exact hlen

/-- C10: a successful ask response is internally consistent: `num_sources` is
the length of `sources`, and the `chunk_id`s are exactly `1, 2, ...,
num_sources` in rank order — the 1-based retrieval rank, independent of the
chunks' original sequence ids. -/
theorem claim_C10_sources_consistent (s : Session) (q : String)
    (env : Main.AskEnv) (resp : Main.AskResponse)
    (h : (Main.ask_question s q env).result = .success resp) :
    resp.num_sources = resp.sources.length ∧
    resp.sources.map (fun src => src.chunk_id) = List.range' 1 resp.num_sources := by
  obtain ⟨chain, ans, hc, hlr, hresp⟩ := ask_success_inv s q env resp h
  subst hresp
  refine ⟨rfl, ?_⟩
  simp only [mkSources_map_chunk_id, mkSources_length]

/-- C10 witness: the concrete response of asking the two-chunk READY session
carries `chunk_id`s `[1, 2]`, matching its `sources` length. -/
theorem claim_C10_witness :
    (Main.successSources (Main.ask_question wReady "hi" wAskEnv).result).map
        (fun src => src.chunk_id) =
      List.range' 1
        (Main.successSources (Main.ask_question wReady "hi" wAskEnv).result).length := by
  obtain ⟨resp, hr⟩ :
      ∃ r, (Main.ask_question wReady "hi" wAskEnv).result = .success r := ⟨_, rfl⟩
  have h := claim_C10_sources_consistent wReady "hi" wAskEnv resp hr
  rw [hr]
  simp only [Main.successSources]
  rw [← h.1]
  exact h.2

end PdfApi
